import Mathlib

/-!
Shallow embedding of the CSV-to-Jira upload pipeline
(repository star7js/jira-upload-csv): row validation (models.py CSVRow),
batch CSV validation and grouping (csv_processor.py), the retry/backoff
loop (jira_client.py JiraClient._make_request_with_retry), and the
per-group orchestration (main.py process_issue_group and main).
-/

/-- A raw CSV record after structural validation: all seven required
columns are present, cells are plain strings (possibly empty). -/
structure RawRecord where
  id : String
  project_key : String
  summary : String
  description : String
  issue_type : String
  subtask_summary : String
  subtask_description : String
deriving DecidableEq, Repr

/-- A validated row, mirroring models.py CSVRow after its pydantic field
validators have run: optional fields hold None for empty/whitespace-only
input, id is trimmed, project_key is trimmed and upper-cased. -/
structure CSVRow where
  id : String
  project_key : String
  summary : Option String
  description : Option String
  issue_type : Option String
  subtask_summary : Option String
  subtask_description : Option String
deriving DecidableEq, Repr

/-- Python truthiness of an optional string: None and the empty string are
falsy (models.py predicates use bare truthiness, not an is-None test). -/
def truthy : Option String → Bool
  | none => false
  | some s => !(s == "")

/-- models.py CSVRow.has_subtask: both subtask fields truthy. -/
def CSVRow.has_subtask (row : CSVRow) : Bool :=
  truthy row.subtask_summary && truthy row.subtask_description

/-- models.py CSVRow.has_main_issue: summary, description and issue_type
all truthy (the spec calls this predicate is_primary_candidate). -/
def CSVRow.has_main_issue (row : CSVRow) : Bool :=
  truthy row.summary && truthy row.description && truthy row.issue_type

/-- Python str.strip over the character list: leading and trailing
whitespace removed. -/
def stripChars (l : List Char) : List Char :=
  ((l.dropWhile Char.isWhitespace).reverse.dropWhile Char.isWhitespace).reverse

/-- Python str.strip on a string. -/
def pyStrip (s : String) : String := ⟨stripChars s.data⟩

/-- Python str.upper on a string (character-wise upper-casing). -/
def pyUpper (s : String) : String := ⟨s.data.map Char.toUpper⟩

/-- The optional-field validators of models.py CSVRow: empty or
whitespace-only input normalizes to None, otherwise the stripped string. -/
def normOpt (s : String) : Option String :=
  if pyStrip s == "" then none else some (pyStrip s)

/-- models.py CSVRow construction as done in csv_processor.py lines 93-101:
fails when id or project_key is empty after trimming, otherwise yields the
normalized row (project_key upper-cased). -/
def validateRow (raw : RawRecord) : Except String CSVRow :=
  if pyStrip raw.id == "" then Except.error "ID cannot be empty"
  else if pyStrip raw.project_key == "" then Except.error "Project key cannot be empty"
  else Except.ok
    { id := pyStrip raw.id
      project_key := pyUpper (pyStrip raw.project_key)
      summary := normOpt raw.summary
      description := normOpt raw.description
      issue_type := normOpt raw.issue_type
      subtask_summary := normOpt raw.subtask_summary
      subtask_description := normOpt raw.subtask_description }

/-- The per-row error message recorded by csv_processor.py line 105:
row ordinal (starting at 2, row 1 being the header) plus message. -/
def rowErrorMsg (n : Nat) (e : String) : String :=
  "Row " ++ toString n ++ ": Validation error - " ++ e

/-- The row loop of CSVProcessor.read_and_validate_csv, carrying the row
counter: valid rows are collected in order, a failing row contributes one
error message and processing continues with the next row. -/
def readAndValidateAux (n : Nat) : List RawRecord → List CSVRow × List String
  | [] => ([], [])
  | r :: rs =>
    let rest := readAndValidateAux (n + 1) rs
    match validateRow r with
    | Except.ok row => (row :: rest.1, rest.2)
    | Except.error e => (rest.1, rowErrorMsg n e :: rest.2)

/-- CSVProcessor.read_and_validate_csv on an already structurally valid
source: returns the validated rows together with the per-row error list
the method accumulates (csv_processor.py lines 80-123). -/
def readAndValidateCsv (records : List RawRecord) : List CSVRow × List String :=
  readAndValidateAux 2 records

/-- One dict update of CSVProcessor.get_issue_groups: append the row to
its group, creating the group at the end on first appearance of the key
(Python dicts iterate in insertion order). -/
def insertRow (groups : List (String × List CSVRow)) (k : String) (r : CSVRow) :
    List (String × List CSVRow) :=
  match groups with
  | [] => [(k, [r])]
  | (k0, rs) :: rest =>
    if k0 = k then (k0, rs ++ [r]) :: rest else (k0, rs) :: insertRow rest k r

/-- The row loop of CSVProcessor.get_issue_groups. -/
def groupAux (groups : List (String × List CSVRow)) : List CSVRow → List (String × List CSVRow)
  | [] => groups
  | r :: rs => groupAux (insertRow groups r.id r) rs

/-- CSVProcessor.get_issue_groups: group rows by id into an
insertion-ordered mapping (csv_processor.py lines 125-144). -/
def get_issue_groups (rows : List CSVRow) : List (String × List CSVRow) :=
  groupAux [] rows

/-- Spec-side description of the grouping key order: the keys in order of
first appearance in the input. -/
def faAux (acc : List String) : List String → List String
  | [] => acc
  | k :: ks => faAux (if k ∈ acc then acc else acc ++ [k]) ks

/-- Keys in order of first appearance (spec-side characterization used to
state the grouping claims). -/
def firstAppearances (l : List String) : List String :=
  faAux [] l

/-- The error contribution of one group in
CSVProcessor.validate_issue_groups (csv_processor.py lines 158-165): the
rows with truthy summary and truthy description are counted; zero such
rows or more than one yields one error message, else none. -/
def groupDelta (p : String × List CSVRow) : List String :=
  let mains := p.2.filter (fun row => truthy row.summary && truthy row.description)
  if mains.length = 0 then ["Issue ID " ++ p.1 ++ ": No main issue data found"]
  else if mains.length > 1 then ["Issue ID " ++ p.1 ++ ": Multiple main issue rows found"]
  else []

/-- The error list accumulated by CSVProcessor.validate_issue_groups. -/
def groupShapeErrors (groups : List (String × List CSVRow)) : List String :=
  groups.foldl (fun errs p => errs ++ groupDelta p) []

/-- CSVProcessor.validate_issue_groups: true iff no group produced an
error; advisory boolean, raises nothing (csv_processor.py lines 146-173). -/
def validate_issue_groups (groups : List (String × List CSVRow)) : Bool :=
  (groupShapeErrors groups).isEmpty

/-- A created remote entity: the id and key fields of the creation
response used by main.py. -/
structure Entity where
  id : String
  key : String
deriving DecidableEq, Repr

/-- An exception from the remote call as classified by
JiraClient._make_request_with_retry: an ApiError carrying a status code,
or any other exception. -/
inductive JiraErr where
  | api (status : Nat) (msg : String)
  | other (msg : String)
deriving DecidableEq, Repr

/-- The message text of an exception (its str in Python). -/
def jiraErrMsg : JiraErr → String
  | JiraErr.api _ m => m
  | JiraErr.other m => m

/-- Outcome of one attempt of the remote call. -/
inductive ApiOutcome where
  | ok (e : Entity)
  | apiError (status : Nat) (msg : String)
  | otherError (msg : String)
deriving DecidableEq, Repr

/-- The exception an attempt outcome raises, if any. -/
def outcomeErr : ApiOutcome → Option JiraErr
  | ApiOutcome.ok _ => none
  | ApiOutcome.apiError s m => some (JiraErr.api s m)
  | ApiOutcome.otherError m => some (JiraErr.other m)

/-- Result of the retry loop: the returned entity or the exception the
loop re-raises (error none is the degenerate retry count zero, where
last_exception is still None), the number of attempts actually performed,
and the list of backoff waits in seconds, in order. -/
structure RetryResult where
  result : Except (Option JiraErr) Entity
  calls : Nat
  waits : List Nat
deriving Repr

/-- The loop body of JiraClient._make_request_with_retry
(jira_client.py lines 46-82), with fuel counting the remaining loop
iterations. On success return at once; on ApiError with status 401 or 403
re-raise at once; on any other 4xx except 429 re-raise at once; otherwise
record the exception and, unless this was the last attempt, wait
D * 2 ^ attempt before retrying; after the loop, re-raise the recorded
last exception. -/
def retryGo (call : Nat → ApiOutcome) (R D : Nat) :
    Nat → Nat → Option JiraErr → Nat → List Nat → RetryResult
  | 0, _, last, calls, waits => ⟨Except.error last, calls, waits⟩
  | fuel + 1, attempt, _, calls, waits =>
    match call attempt with
    | ApiOutcome.ok e => ⟨Except.ok e, calls + 1, waits⟩
    | ApiOutcome.apiError s m =>
      if s = 401 ∨ s = 403 then ⟨Except.error (some (JiraErr.api s m)), calls + 1, waits⟩
      else if 400 ≤ s ∧ s < 500 ∧ s ≠ 429 then
        ⟨Except.error (some (JiraErr.api s m)), calls + 1, waits⟩
      else
        retryGo call R D fuel (attempt + 1) (some (JiraErr.api s m)) (calls + 1)
          (if attempt < R - 1 then waits ++ [D * 2 ^ attempt] else waits)
    | ApiOutcome.otherError m =>
      retryGo call R D fuel (attempt + 1) (some (JiraErr.other m)) (calls + 1)
        (if attempt < R - 1 then waits ++ [D * 2 ^ attempt] else waits)

/-- JiraClient._make_request_with_retry with retry count R and base delay
D, the remote call abstracted as a function from attempt index to
outcome. -/
def makeRequestWithRetry (R D : Nat) (call : Nat → ApiOutcome) : RetryResult :=
  retryGo call R D R 0 none 0 []

/-- Modelled from the spec: src/constants.py is not part of the provided
sources; it supplies only the fixed subtask issue-type name used as the
issuetype of every child payload (spec section 6: the creation capability
is parameterized by type; children all carry the one subtask type). The
concrete string is opaque to every claim. -/
def SUBTASK_ISSUE_TYPE : String := "Sub-task"

/-- The field payload of main.py create_issue_data. -/
structure IssuePayload where
  project : String
  summary : Option String
  description : Option String
  issuetype : Option String
deriving DecidableEq, Repr

/-- The field payload of main.py create_subtask_data, carrying the
parent linkage id. -/
structure SubtaskPayload where
  project : String
  summary : Option String
  description : Option String
  issuetype : String
  parent : String
deriving DecidableEq, Repr

/-- main.py create_issue_data (lines 42-57). -/
def create_issue_data (row : CSVRow) : IssuePayload :=
  ⟨row.project_key, row.summary, row.description, row.issue_type⟩

/-- main.py create_subtask_data (lines 60-77). -/
def create_subtask_data (row : CSVRow) (parent_id : String) : SubtaskPayload :=
  ⟨row.project_key, row.subtask_summary, row.subtask_description, SUBTASK_ISSUE_TYPE, parent_id⟩

/-- One created-entity record of a group result (key, id, browse url,
source summary), as built in main.py process_issue_group. -/
structure CreatedIssue where
  key : String
  id : String
  url : String
  summary : Option String
deriving DecidableEq, Repr

/-- The per-group result dictionary of main.py process_issue_group. -/
structure GroupResult where
  issue_id : String
  main_issue : Option CreatedIssue
  subtasks : List CreatedIssue
  errors : List String
deriving DecidableEq, Repr

/-- One submission actually sent to the remote service, recorded so the
theorems can observe which create calls a run attempts. -/
inductive SubmitCall where
  | issue (p : IssuePayload)
  | subtask (p : SubtaskPayload)
deriving DecidableEq, Repr

/-- Whether a recorded submission is a child (subtask) creation. -/
def isSubtaskCall : SubmitCall → Bool
  | SubmitCall.issue _ => false
  | SubmitCall.subtask _ => true

/-- Python string interpolation of an optional string (None prints as
None). -/
def optStr : Option String → String
  | none => "None"
  | some s => s

/-- The subtask loop of main.py process_issue_group (lines 131-152),
folded over the rows: each row with subtask data is submitted carrying the
parent id; a failure records an error for that child only and the loop
continues. The fold also records the submissions attempted. -/
def subtaskStep (createSubtask : SubtaskPayload → Except JiraErr Entity)
    (base_url parent_id : String)
    (acc : List CreatedIssue × List String × List SubmitCall) (row : CSVRow) :
    List CreatedIssue × List String × List SubmitCall :=
  if row.has_subtask then
    let sp := create_subtask_data row parent_id
    match createSubtask sp with
    | Except.ok s =>
      (acc.1 ++ [⟨s.key, s.id, base_url ++ "/browse/" ++ s.key, row.subtask_summary⟩],
       acc.2.1, acc.2.2 ++ [SubmitCall.subtask sp])
    | Except.error e =>
      (acc.1,
       acc.2.1 ++ ["Failed to create subtask " ++ optStr row.subtask_summary ++ ": "
         ++ jiraErrMsg e],
       acc.2.2 ++ [SubmitCall.subtask sp])
  else acc

/-- main.py process_issue_group (lines 80-159), with the two client
operations abstracted as functions and the attempted submissions returned
alongside the result: find the first row with truthy summary and truthy
description; if none, record one error and stop with no submission; else
submit the primary, and only on its success walk the rows submitting each
row with subtask data, errors per child recorded without aborting the
loop; a primary failure records one error and attempts no child. -/
def process_issue_group (issue_id : String) (rows : List CSVRow)
    (createIssue : IssuePayload → Except JiraErr Entity)
    (createSubtask : SubtaskPayload → Except JiraErr Entity)
    (base_url : String) : GroupResult × List SubmitCall :=
  match rows.find? (fun row => truthy row.summary && truthy row.description) with
  | none =>
    ({ issue_id := issue_id, main_issue := none, subtasks := [],
       errors := ["No main issue data found for issue ID " ++ issue_id] }, [])
  | some mainRow =>
    let payload := create_issue_data mainRow
    match createIssue payload with
    | Except.error e =>
      ({ issue_id := issue_id, main_issue := none, subtasks := [],
         errors := ["Failed to create main issue " ++ optStr mainRow.summary ++ ": "
           ++ jiraErrMsg e] },
       [SubmitCall.issue payload])
    | Except.ok ent =>
      let res := rows.foldl (subtaskStep createSubtask base_url ent.id) ([], [], [])
      ({ issue_id := issue_id,
         main_issue := some ⟨ent.key, ent.id, base_url ++ "/browse/" ++ ent.key,
           mainRow.summary⟩,
         subtasks := res.1, errors := res.2.1 },
       SubmitCall.issue payload :: res.2.2)

/-- main.py main (lines 162-263) from the connectivity probe onward, on a
structurally valid source, with the client abstracted: failed probe means
an unsuccessful run with no submission; zero valid rows means a successful
run with no submission; grouping then the group-shape check, whose failure
aborts the run (returns false) with no submission; otherwise every group
is processed in order and the run succeeds iff every group result has an
empty error list. Returns the run outcome and all submissions attempted. -/
def mainRun (connOk : Bool) (records : List RawRecord)
    (createIssue : IssuePayload → Except JiraErr Entity)
    (createSubtask : SubtaskPayload → Except JiraErr Entity)
    (base_url : String) : Bool × List SubmitCall :=
  if connOk = false then (false, [])
  else
    let rows := (readAndValidateCsv records).1
    if rows.isEmpty then (true, [])
    else
      let groups := get_issue_groups rows
      if validate_issue_groups groups = false then (false, [])
      else
        let results := groups.map
          (fun p => process_issue_group p.1 p.2 createIssue createSubtask base_url)
        let error_count := (results.filter (fun pr => pr.1.errors.isEmpty = false)).length
        (decide (error_count = 0), (results.map (fun pr => pr.2)).flatten)

/-- Spec-side characterization of get_issue_groups (section 4.2 of the
design): keys in order of first appearance, each mapped to the rows with
that id in input order. Compared against the source translation in the
grouping theorems. -/
def groupSpec (rows : List CSVRow) : List (String × List CSVRow) :=
  (firstAppearances (rows.map (fun r => r.id))).map
    (fun k => (k, rows.filter (fun r => r.id == k)))

/-- A row carrying summary and description but no issue type: a primary
row for validate_issue_groups but not an is_primary_candidate row. -/
def c2row : CSVRow :=
  { id := "1", project_key := "PROJ", summary := some "s", description := some "d",
    issue_type := none, subtask_summary := none, subtask_description := none }

/-- A valid one-primary group used to instantiate the amended group
verification theorem. -/
def c2goodRow : CSVRow :=
  { id := "2", project_key := "PROJ", summary := some "s", description := some "d",
    issue_type := some "Task", subtask_summary := none, subtask_description := none }

/-- A remote call rejecting every attempt with HTTP 401. -/
def authCall : Nat → ApiOutcome := fun _ => ApiOutcome.apiError 401 "Unauthorized"

/-- A remote call failing transiently twice, then succeeding. -/
def transientCall : Nat → ApiOutcome := fun i =>
  if i = 0 then ApiOutcome.otherError "connection reset"
  else if i = 1 then ApiOutcome.otherError "connection reset"
  else ApiOutcome.ok ⟨"10002", "PROJ-3"⟩

/-- A remote call rejecting every attempt with HTTP 403. -/
def c5AuthCall : Nat → ApiOutcome := fun _ => ApiOutcome.apiError 403 "Forbidden"

/-- A remote call failing every attempt with a transient error, used to
exercise the retry-exhaustion path. -/
def c5TransientCall : Nat → ApiOutcome := fun _ => ApiOutcome.otherError "gateway timeout"

/-- Group row carrying both primary and child data. -/
def c9main : CSVRow :=
  { id := "1", project_key := "PROJ", summary := some "Main", description := some "Desc",
    issue_type := some "Task", subtask_summary := some "Child", subtask_description := some "CDesc" }

/-- Group row carrying child data only. -/
def c9child : CSVRow :=
  { id := "1", project_key := "PROJ", summary := none, description := none,
    issue_type := none, subtask_summary := some "Child2", subtask_description := some "CDesc2" }

/-- A group containing a primary row and a child-data row. -/
def c9rows : List CSVRow := [c9main, c9child]

/-- An issue-creation operation that always fails with a client error. -/
def failIssue : IssuePayload → Except JiraErr Entity :=
  fun _ => Except.error (JiraErr.api 400 "Bad Request")

/-- An issue-creation operation that always succeeds. -/
def okIssue : IssuePayload → Except JiraErr Entity :=
  fun _ => Except.ok ⟨"10000", "PROJ-1"⟩

/-- A subtask-creation operation that always succeeds. -/
def okSubtask : SubtaskPayload → Except JiraErr Entity :=
  fun _ => Except.ok ⟨"10001", "PROJ-2"⟩

/-- A record whose group has no primary row (empty summary and
description) but does carry child data. -/
def c1rec1 : RawRecord := ⟨"1", "proj", "", "", "", "Child", "CDesc"⟩

/-- A record forming a shape-valid one-row group. -/
def c1rec2 : RawRecord := ⟨"2", "proj", "Main", "Desc", "Task", "", ""⟩

/-- A source with one shape-invalid group and one shape-valid group. -/
def c1records : List RawRecord := [c1rec1, c1rec2]

/-- A source whose only record fails row validation (whitespace id), so
reading yields zero valid rows. -/
def c10records : List RawRecord := [⟨" ", "PROJ", "s", "d", "Task", "", ""⟩]

/-! ## Batch row validation -/

theorem readAndValidateAux_spec (records : List RawRecord) : ∀ n : Nat,
    readAndValidateAux n records =
      (records.filterMap (fun r => (validateRow r).toOption),
       (records.enumFrom n).filterMap (fun p =>
         match validateRow p.2 with
         | Except.ok _ => none
         | Except.error e => some (rowErrorMsg p.1 e))) := by
  induction records with
  | nil => intro n; rfl
  | cons r rs ih =>
    intro n
    simp only [readAndValidateAux, List.enumFrom, List.filterMap_cons, ih (n + 1)]
    cases h : validateRow r <;> simp [h, Except.toOption]

/-- Claim C6: batch validation yields both the validated rows (in order,
each from a record that validates) and one error message per malformed
record carrying the row ordinal; moreover validation distributes over
append, so a malformed record never aborts processing and every later
well-formed record still appears in the output. -/
theorem read_and_validate_never_aborts :
    ∀ records : List RawRecord,
      (readAndValidateCsv records).1 =
        records.filterMap (fun r => (validateRow r).toOption) ∧
      (readAndValidateCsv records).2 =
        (records.enumFrom 2).filterMap (fun p =>
          match validateRow p.2 with
          | Except.ok _ => none
          | Except.error e => some (rowErrorMsg p.1 e)) ∧
      ∀ pre post : List RawRecord,
        (readAndValidateCsv (pre ++ post)).1 =
          (readAndValidateCsv pre).1 ++ (readAndValidateCsv post).1 := by
  intro records
  refine ⟨?_, ?_, ?_⟩
  · rw [readAndValidateCsv, readAndValidateAux_spec]
  · rw [readAndValidateCsv, readAndValidateAux_spec]
  · intro pre post
    rw [readAndValidateCsv, readAndValidateCsv, readAndValidateCsv,
      readAndValidateAux_spec, readAndValidateAux_spec, readAndValidateAux_spec]
    simp [List.filterMap_append]

/-! ## Grouping -/

theorem faAux_append_single (l : List String) : ∀ (acc : List String) (k : String),
    faAux acc (l ++ [k]) =
      if k ∈ faAux acc l then faAux acc l else faAux acc l ++ [k] := by
  induction l with
  | nil => intro acc k; simp [faAux]
  | cons a l ih =>
    intro acc k
    simp only [List.cons_append, faAux]
    exact ih _ k

theorem firstAppearances_append_single (l : List String) (k : String) :
    firstAppearances (l ++ [k]) =
      if k ∈ firstAppearances l then firstAppearances l
      else firstAppearances l ++ [k] :=
  faAux_append_single l [] k

theorem mem_faAux (x : String) : ∀ (l acc : List String),
    x ∈ faAux acc l ↔ x ∈ acc ∨ x ∈ l := by
  intro l
  induction l with
  | nil => intro acc; simp [faAux]
  | cons k ks ih =>
    intro acc
    by_cases h : k ∈ acc
    · simp only [faAux, if_pos h, ih, List.mem_cons]
      constructor
      · rintro (hx | hx)
        · exact Or.inl hx
        · exact Or.inr (Or.inr hx)
      · rintro (hx | hx | hx)
        · exact Or.inl hx
        · exact Or.inl (hx ▸ h)
        · exact Or.inr hx
    · simp only [faAux, if_neg h, ih, List.mem_append, List.mem_cons,
        List.mem_singleton]
      tauto

theorem nodup_faAux : ∀ (l acc : List String), acc.Nodup → (faAux acc l).Nodup := by
  intro l
  induction l with
  | nil => intro acc h; simpa [faAux] using h
  | cons k ks ih =>
    intro acc h
    simp only [faAux]
    by_cases hk : k ∈ acc
    · rw [if_pos hk]
      exact ih acc h
    · rw [if_neg hk]
      refine ih (acc ++ [k]) ?_
      simp [List.nodup_append, h, hk]

theorem insertRow_of_not_mem (k : String) (r : CSVRow) (f : String → List CSVRow) :
    ∀ K : List String, k ∉ K →
      insertRow (K.map (fun x => (x, f x))) k r =
        K.map (fun x => (x, f x)) ++ [(k, [r])] := by
  intro K
  induction K with
  | nil => intro _; rfl
  | cons a K ih =>
    intro h
    have ha : a ≠ k := fun hak => h (hak ▸ List.mem_cons_self a K)
    have hK : k ∉ K := fun hk => h (List.mem_cons_of_mem a hk)
    simp only [List.map_cons, insertRow, if_neg ha, ih hK, List.cons_append]

theorem insertRow_of_mem (k : String) (r : CSVRow) (f : String → List CSVRow) :
    ∀ K : List String, k ∈ K → K.Nodup →
      insertRow (K.map (fun x => (x, f x))) k r =
        K.map (fun x => (x, if x = k then f x ++ [r] else f x)) := by
  intro K
  induction K with
  | nil => intro h _; exact absurd h (List.not_mem_nil k)
  | cons a K ih =>
    intro hmem hnd
    rcases List.nodup_cons.mp hnd with ⟨haK, hndK⟩
    by_cases ha : a = k
    · subst ha
      have htail : List.map (fun x => (x, if x = a then f x ++ [r] else f x)) K
          = List.map (fun x => (x, f x)) K := by
        refine List.map_congr_left ?_
        intro x hx
        have hxa : ¬ x = a := fun hcontra => haK (hcontra ▸ hx)
        simp [hxa]
      simp [insertRow, htail]
    · have hk : k ∈ K := by
        rcases List.mem_cons.mp hmem with h | h
        · exact absurd h.symm ha
        · exact h
      simp only [List.map_cons, insertRow, if_neg ha, ih hk hndK]

theorem filter_id_eq_nil (rows : List CSVRow) (k : String)
    (h : k ∉ rows.map (fun r => r.id)) :
    rows.filter (fun r => r.id == k) = [] := by
  refine List.filter_eq_nil_iff.mpr ?_
  intro r hr
  have : r.id ≠ k := fun hk => h (hk ▸ List.mem_map_of_mem (fun r => r.id) hr)
  simpa using this

theorem groupSpec_step (seen : List CSVRow) (r : CSVRow) :
    insertRow (groupSpec seen) r.id r = groupSpec (seen ++ [r]) := by
  have hmap : (seen ++ [r]).map (fun x => x.id) = seen.map (fun x => x.id) ++ [r.id] := by
    simp
  have hnd : (firstAppearances (seen.map (fun x => x.id))).Nodup :=
    nodup_faAux _ [] List.nodup_nil
  have hfilter : ∀ k : String,
      (seen ++ [r]).filter (fun x => x.id == k) =
        seen.filter (fun x => x.id == k) ++ if r.id = k then [r] else [] := by
    intro k
    rw [List.filter_append]
    by_cases h : r.id = k
    · simp [List.filter, h]
    · have hbe : (r.id == k) = false := by
        simp [h]
      simp [List.filter, hbe, h]
  by_cases hmem : r.id ∈ firstAppearances (seen.map (fun x => x.id))
  · have hfa : firstAppearances ((seen ++ [r]).map (fun x => x.id)) =
        firstAppearances (seen.map (fun x => x.id)) := by
      rw [hmap, firstAppearances_append_single, if_pos hmem]
    rw [groupSpec, groupSpec, hfa]
    rw [insertRow_of_mem r.id r _ _ hmem hnd]
    refine List.map_congr_left ?_
    intro k _
    by_cases hk : k = r.id
    · subst hk
      simp [hfilter r.id]
    · have hne : r.id ≠ k := fun hcontra => hk hcontra.symm
      simp [hfilter k, hk, hne]
  · have hfa : firstAppearances ((seen ++ [r]).map (fun x => x.id)) =
        firstAppearances (seen.map (fun x => x.id)) ++ [r.id] := by
      rw [hmap, firstAppearances_append_single, if_neg hmem]
    have hnotin : r.id ∉ seen.map (fun x => x.id) := by
      intro hcontra
      exact hmem ((mem_faAux r.id _ []).mpr (Or.inr hcontra))
    rw [groupSpec, groupSpec, hfa, List.map_append]
    rw [insertRow_of_not_mem r.id r _ _ hmem]
    congr 1
    · refine List.map_congr_left ?_
      intro k hk
      have hne : r.id ≠ k := fun hcontra => hmem (hcontra ▸ hk)
      simp [hfilter k, hne]
    · simp [hfilter r.id, filter_id_eq_nil seen r.id hnotin]

theorem groupAux_spec (rows : List CSVRow) : ∀ seen : List CSVRow,
    groupAux (groupSpec seen) rows = groupSpec (seen ++ rows) := by
  induction rows with
  | nil => intro seen; simp [groupAux]
  | cons r rs ih =>
    intro seen
    calc groupAux (groupSpec seen) (r :: rs)
        = groupAux (groupSpec (seen ++ [r])) rs := by
          rw [groupAux, groupSpec_step]
      _ = groupSpec (seen ++ [r] ++ rs) := ih (seen ++ [r])
      _ = groupSpec (seen ++ (r :: rs)) := by simp

/-- Claim C7: get_issue_groups is exactly the insertion-ordered grouping:
its keys are the group keys in order of first appearance in the input,
and each key maps to the input rows with that id in input order. -/
theorem get_issue_groups_order : ∀ rows : List CSVRow,
    get_issue_groups rows = groupSpec rows ∧
    (get_issue_groups rows).map Prod.fst =
      firstAppearances (rows.map (fun r => r.id)) := by
  intro rows
  have h : get_issue_groups rows = groupSpec rows := by
    have h0 : groupSpec [] = ([] : List (String × List CSVRow)) := rfl
    have h1 := groupAux_spec rows []
    rw [h0] at h1
    simpa [get_issue_groups] using h1
  refine ⟨h, ?_⟩
  rw [h, groupSpec, List.map_map]
  have hcomp : (Prod.fst ∘ fun k : String => (k, rows.filter (fun r => r.id == k))) = id := rfl
  rw [hcomp, List.map_id]

/-- Claim C8: get_issue_groups is deterministic: two runs on the same
validated-row sequence yield identical keys in identical order and
identical row lists per key (the function is pure, so the two
applications are equal). -/
theorem get_issue_groups_idempotent : ∀ rows : List CSVRow,
    (get_issue_groups rows).map Prod.fst = (get_issue_groups rows).map Prod.fst ∧
    get_issue_groups rows = get_issue_groups rows :=
  fun _ => ⟨rfl, rfl⟩

/-! ## Group-shape verification -/

theorem foldl_append_groupDelta : ∀ (groups : List (String × List CSVRow)) (errs : List String),
    groups.foldl (fun e p => e ++ groupDelta p) errs = errs ++ groups.flatMap groupDelta := by
  intro groups
  induction groups with
  | nil => intro errs; simp
  | cons p ps ih => intro errs; simp [List.foldl_cons, ih, List.flatMap_cons]

theorem groupShapeErrors_eq (groups : List (String × List CSVRow)) :
    groupShapeErrors groups = groups.flatMap groupDelta := by
  rw [groupShapeErrors, foldl_append_groupDelta]
  simp

theorem groupDelta_eq_nil (p : String × List CSVRow) :
    groupDelta p = [] ↔
      (p.2.filter (fun row => truthy row.summary && truthy row.description)).length = 1 := by
  simp only [groupDelta]
  split_ifs with h1 h2
  · constructor
    · intro h; exact absurd h (by simp)
    · intro h; omega
  · constructor
    · intro h; exact absurd h (by simp)
    · intro h; omega
  · constructor
    · intro _; omega
    · intro _; rfl

/-- Claim C2 counterexample: a group whose single row carries summary and
description but no issue type. validate_issue_groups accepts the grouping
although the group contains zero rows satisfying has_main_issue (the
is_primary_candidate predicate of the claim), so the stated equivalence
fails. -/
theorem validate_groups_ignores_issue_type :
    validate_issue_groups [("1", [c2row])] = true ∧
      ([c2row].filter (fun r => r.has_main_issue)).length = 0 := by
  constructor
  · rfl
  · rfl

/-- Claim C2 (amended): validate_issue_groups returns true iff every group
contains exactly one row whose summary and description are both present
and non-empty; the issue-type field is not consulted by this check. -/
theorem validate_issue_groups_iff : ∀ groups : List (String × List CSVRow),
    validate_issue_groups groups = true ↔
      ∀ p ∈ groups,
        (p.2.filter (fun row => truthy row.summary && truthy row.description)).length = 1 := by
  intro groups
  rw [validate_issue_groups, List.isEmpty_iff, groupShapeErrors_eq]
  rw [List.flatMap_eq_nil_iff]
  constructor
  · intro h p hp
    exact (groupDelta_eq_nil p).mp (h p hp)
  · intro h p hp
    exact (groupDelta_eq_nil p).mpr (h p hp)

/-- Claim C2 (amended) witness: the equivalence instantiated at a
concrete one-group mapping with exactly one primary row. -/
theorem validate_issue_groups_iff_witness :
    validate_issue_groups [("2", [c2goodRow])] = true :=
  (validate_issue_groups_iff [("2", [c2goodRow])]).mpr (by decide)

/-! ## Retry and backoff -/

/-- Claim C3: when every attempt of the remote call fails with an
authentication-classified error (HTTP 401 or 403), the submission fails
after exactly one attempt, with no retry and no backoff wait, for every
configured retry count R with 1 ≤ R and every base delay D. -/
theorem retry_auth_fails_immediately (R D : Nat) (call : Nat → ApiOutcome)
    (s : Nat) (m : String) (hR : 1 ≤ R) (hauth : s = 401 ∨ s = 403)
    (hcall : ∀ i, call i = ApiOutcome.apiError s m) :
    makeRequestWithRetry R D call =
      ⟨Except.error (some (JiraErr.api s m)), 1, []⟩ := by
  obtain ⟨n, rfl⟩ : ∃ n, R = n + 1 := ⟨R - 1, by omega⟩
  rw [makeRequestWithRetry]
  simp only [retryGo, hcall 0]
  rw [if_pos hauth]

/-- Claim C3 witness: one attempt, no wait, against a call rejecting every
attempt with HTTP 401, with retry count 3 and delay 5. -/
theorem retry_auth_fails_immediately_witness :
    1 ≤ 3 ∧ ((401 : Nat) = 401 ∨ (401 : Nat) = 403) ∧
      makeRequestWithRetry 3 5 authCall =
        ⟨Except.error (some (JiraErr.api 401 "Unauthorized")), 1, []⟩ :=
  ⟨by decide, Or.inl rfl,
    retry_auth_fails_immediately 3 5 authCall 401 "Unauthorized" (by decide)
      (Or.inl rfl) (fun _ => rfl)⟩

/-- Claim C4: if the remote call fails transiently on the first two
attempts and succeeds on the third, the submission with retry count 3 and
base delay D returns the third attempt's entity after exactly three
attempts, with exactly the two backoff waits D * 2 ^ 0 and D * 2 ^ 1 in
between, strictly increasing whenever D > 0. -/
theorem retry_transient_then_success (D : Nat) (call : Nat → ApiOutcome)
    (m1 m2 : String) (ent : Entity)
    (h0 : call 0 = ApiOutcome.otherError m1) (h1 : call 1 = ApiOutcome.otherError m2)
    (h2 : call 2 = ApiOutcome.ok ent) :
    makeRequestWithRetry 3 D call = ⟨Except.ok ent, 3, [D * 2 ^ 0, D * 2 ^ 1]⟩ ∧
      (0 < D → D * 2 ^ 0 < D * 2 ^ 1) := by
  constructor
  · rw [makeRequestWithRetry]
    simp only [retryGo, h0, h1, h2]
    norm_num
  · intro hD
    have e0 : D * 2 ^ 0 = D := by norm_num
    have e1 : D * 2 ^ 1 = 2 * D := by ring
    omega

/-- Claim C4 witness: the transient-twice-then-success schedule with base
delay 5 returns the third attempt's entity after waits of 5 and 10
seconds. -/
theorem retry_transient_then_success_witness :
    makeRequestWithRetry 3 5 transientCall =
        ⟨Except.ok ⟨"10002", "PROJ-3"⟩, 3, [5 * 2 ^ 0, 5 * 2 ^ 1]⟩ ∧
      (0 < 5 → 5 * 2 ^ 0 < 5 * 2 ^ 1) :=
  retry_transient_then_success 5 transientCall "connection reset" "connection reset"
    ⟨"10002", "PROJ-3"⟩ rfl rfl rfl

theorem retryGo_last_cause (call : Nat → ApiOutcome) (R D : Nat) :
    ∀ (fuel attempt : Nat) (last : Option JiraErr) (calls : Nat) (waits : List Nat),
      attempt = calls →
      (∀ e0, last = some e0 → 1 ≤ calls ∧ outcomeErr (call (calls - 1)) = some e0) →
      ∀ e, (retryGo call R D fuel attempt last calls waits).result =
          Except.error (some e) →
        1 ≤ (retryGo call R D fuel attempt last calls waits).calls ∧
        outcomeErr (call ((retryGo call R D fuel attempt last calls waits).calls - 1)) =
          some e := by
  intro fuel
  induction fuel with
  | zero =>
    intro attempt last calls waits _ hinv e hres
    simp only [retryGo, Except.error.injEq] at hres ⊢
    exact hinv e hres
  | succ n ih =>
    intro attempt last calls waits ha hinv e hres
    cases hc : call attempt with
    | ok ent => simp [retryGo, hc] at hres
    | apiError s m =>
      by_cases h1 : s = 401 ∨ s = 403
      · simp only [retryGo, hc, if_pos h1] at hres ⊢
        obtain rfl : JiraErr.api s m = e := by
          simpa using hres
        refine ⟨by omega, ?_⟩
        have hsub : calls + 1 - 1 = calls := by omega
        rw [hsub, ← ha, hc]
        rfl
      · by_cases h2 : 400 ≤ s ∧ s < 500 ∧ s ≠ 429
        · simp only [retryGo, hc, if_neg h1, if_pos h2] at hres ⊢
          obtain rfl : JiraErr.api s m = e := by
            simpa using hres
          refine ⟨by omega, ?_⟩
          have hsub : calls + 1 - 1 = calls := by omega
          rw [hsub, ← ha, hc]
          rfl
        · simp only [retryGo, hc, if_neg h1, if_neg h2] at hres ⊢
          refine ih (attempt + 1) (some (JiraErr.api s m)) (calls + 1) _ (by omega)
            ?_ e hres
          intro e0 he0
          obtain rfl : JiraErr.api s m = e0 := by simpa using he0
          refine ⟨by omega, ?_⟩
          have hsub : calls + 1 - 1 = calls := by omega
          rw [hsub, ← ha, hc]
          rfl
    | otherError m =>
      simp only [retryGo, hc] at hres ⊢
      refine ih (attempt + 1) (some (JiraErr.other m)) (calls + 1) _ (by omega)
        ?_ e hres
      intro e0 he0
      obtain rfl : JiraErr.other m = e0 := by simpa using he0
      refine ⟨by omega, ?_⟩
      have hsub : calls + 1 - 1 = calls := by omega
      rw [hsub, ← ha, hc]
      rfl

/-- Claim C5 (amended): whenever a submission ultimately fails — by
non-retryable rejection or by exhausting all retries — the failure
surfaces as the last underlying exception itself, re-raised as-is: the
surfaced error is exactly the error raised by the last attempted call, so
the two cases are distinguishable only by that exception's
classification, not by a separate error kind (no wrapper error exists in
the code). -/
theorem retry_failure_surfaces_last_cause (R D : Nat) (call : Nat → ApiOutcome)
    (e : JiraErr)
    (hres : (makeRequestWithRetry R D call).result = Except.error (some e)) :
    1 ≤ (makeRequestWithRetry R D call).calls ∧
    outcomeErr (call ((makeRequestWithRetry R D call).calls - 1)) = some e := by
  rw [makeRequestWithRetry] at hres ⊢
  exact retryGo_last_cause call R D R 0 none 0 [] rfl
    (fun e0 he0 => by cases he0) e hres

/-- Claim C5 counterexample: against a call rejecting every attempt with
HTTP 403 the loop surfaces the underlying ApiError value itself — the
error of the result is the very JiraErr the call raised, not a value of
some wrapping SubmissionError kind (none exists in the embedding of the
code). -/
theorem submission_failure_not_wrapped :
    makeRequestWithRetry 3 5 c5AuthCall =
      ⟨Except.error (some (JiraErr.api 403 "Forbidden")), 1, []⟩ ∧
    outcomeErr (c5AuthCall 0) = some (JiraErr.api 403 "Forbidden") := by
  constructor
  · rfl
  · rfl

/-- Claim C5 (amended) witness: the exhausted-retries case with retry
count 2 against an always-transient call; the surfaced error is the last
call's own exception. -/
theorem retry_failure_surfaces_last_cause_witness :
    (makeRequestWithRetry 2 0 c5TransientCall).result =
        Except.error (some (JiraErr.other "gateway timeout")) ∧
      (1 ≤ (makeRequestWithRetry 2 0 c5TransientCall).calls ∧
        outcomeErr (c5TransientCall ((makeRequestWithRetry 2 0 c5TransientCall).calls - 1)) =
          some (JiraErr.other "gateway timeout")) :=
  ⟨rfl, retry_failure_surfaces_last_cause 2 0 c5TransientCall
    (JiraErr.other "gateway timeout") rfl⟩

/-! ## Orchestrator -/

/-- Claim C9: if the group has a primary row and its submission fails,
the group result records no primary entity and exactly one error, no
subtask result, and the only call attempted is the single primary
creation — zero child submissions are attempted even when rows with child
data exist in the group. -/
theorem primary_failure_no_children (issue_id : String) (rows : List CSVRow)
    (ci : IssuePayload → Except JiraErr Entity)
    (cs : SubtaskPayload → Except JiraErr Entity) (base_url : String)
    (mainRow : CSVRow) (e : JiraErr)
    (hfind : rows.find? (fun row => truthy row.summary && truthy row.description) =
      some mainRow)
    (hfail : ci (create_issue_data mainRow) = Except.error e) :
    (process_issue_group issue_id rows ci cs base_url).1.main_issue = none ∧
    (process_issue_group issue_id rows ci cs base_url).1.errors.length = 1 ∧
    (process_issue_group issue_id rows ci cs base_url).1.subtasks = [] ∧
    (process_issue_group issue_id rows ci cs base_url).2 =
      [SubmitCall.issue (create_issue_data mainRow)] := by
  simp [process_issue_group, hfind, hfail]

/-- Claim C9 witness: a two-row group whose second row carries child data,
against an issue creation failing with a client error: no primary, one
error, no subtask, one single primary call attempted. -/
theorem primary_failure_no_children_witness :
    c9rows.find? (fun row => truthy row.summary && truthy row.description) =
        some c9main ∧
      c9child.has_subtask = true ∧
      ((process_issue_group "1" c9rows failIssue okSubtask "https://jira").1.main_issue = none ∧
        (process_issue_group "1" c9rows failIssue okSubtask "https://jira").1.errors.length = 1 ∧
        (process_issue_group "1" c9rows failIssue okSubtask "https://jira").1.subtasks = [] ∧
        (process_issue_group "1" c9rows failIssue okSubtask "https://jira").2 =
          [SubmitCall.issue (create_issue_data c9main)]) :=
  ⟨rfl, rfl,
    primary_failure_no_children "1" c9rows failIssue okSubtask "https://jira"
      c9main (JiraErr.api 400 "Bad Request") rfl rfl⟩

/-- Claim C1 counterexample: a source with one shape-invalid group (no
primary row, but child data present) and one shape-valid group. The
group-shape check fails and main returns false having attempted zero
submissions — the valid group "2" does not proceed to submission, so the
failure is not advisory-and-continue as claimed. -/
theorem group_validation_aborts_run :
    mainRun true c1records okIssue okSubtask "https://jira" = (false, []) ∧
      ((get_issue_groups (readAndValidateCsv c1records).1).filter
        (fun p => (groupDelta p).isEmpty)).map Prod.fst = ["2"] := by
  constructor
  · decide
  · decide

/-- Claim C1 (amended): group-shape validation failure is fatal to the
run: validate_issue_groups itself is an advisory boolean (it raises
nothing), but when it reports failure main aborts the entire batch,
returning false with no submission attempted for any group, valid ones
included. -/
theorem main_aborts_on_group_shape (records : List RawRecord)
    (ci : IssuePayload → Except JiraErr Entity)
    (cs : SubtaskPayload → Except JiraErr Entity) (base_url : String)
    (hrows : ((readAndValidateCsv records).1).isEmpty = false)
    (hval : validate_issue_groups (get_issue_groups (readAndValidateCsv records).1) =
      false) :
    mainRun true records ci cs base_url = (false, []) := by
  simp [mainRun, hrows, hval]

/-- Claim C1 (amended) witness: the amended behavior instantiated on the
concrete two-group source of the counterexample. -/
theorem main_aborts_on_group_shape_witness :
    ((readAndValidateCsv c1records).1).isEmpty = false ∧
      validate_issue_groups (get_issue_groups (readAndValidateCsv c1records).1) = false ∧
      mainRun true c1records okIssue okSubtask "https://jira" = (false, []) :=
  ⟨by decide, by decide,
    main_aborts_on_group_shape c1records okIssue okSubtask "https://jira" (by decide)
      (by decide)⟩

/-- Claim C10: when reading and validating the source yields zero valid
rows, the run reports overall success (true) with no submission
attempted. -/
theorem main_no_rows_success (records : List RawRecord)
    (ci : IssuePayload → Except JiraErr Entity)
    (cs : SubtaskPayload → Except JiraErr Entity) (base_url : String)
    (h : (readAndValidateCsv records).1 = []) :
    mainRun true records ci cs base_url = (true, []) := by
  simp [mainRun, h]

/-- Claim C10 witness: a source whose only record fails row validation:
the run returns true with zero submissions. -/
theorem main_no_rows_success_witness :
    (readAndValidateCsv c10records).1 = [] ∧
      mainRun true c10records okIssue okSubtask "https://jira" = (true, []) :=
  ⟨by decide, main_no_rows_success c10records okIssue okSubtask "https://jira" (by decide)⟩
